import Mathlib

/-
Verification of the metadata-reconciliation and design-assembly engine of
NiBetaSeries, embedded from src/NiBetaSeries/workflows/util.py.

Modelling conventions:
- File system and indexer queries are out of scope (the spec treats them as
  external collaborators).  Each function that queries the dataset indexer is
  therefore embedded as a function of the query RESULTS: a `List` of matched
  files, each file represented by its parsed contents.
- JSON sidecar records are embedded as association lists `List (String × Int)`
  (keys with numeric values), matching `json.load` followed by
  `collections.Counter` in the source.
- Python runtime failures (`NameError` / `UnboundLocalError` on an unbound
  name, `IndexError` on out-of-range indexing) are embedded as
  `Except.error` values of type `PyError`.  Several functions in the source
  reference names that are never bound; the embedding reproduces those
  failures instead of repairing them.
- `float` event onsets/durations and metadata values are embedded as `Int`;
  none of the verified properties depend on fractional values.
-/

set_option linter.unusedVariables false

/-- Runtime errors of the embedded Python code: `nameError n` stands for both
`NameError` and `UnboundLocalError` on the unbound name `n`; `indexError`
stands for `IndexError` on an out-of-range list index. -/
inductive PyError where
  | nameError (n : String) : PyError
  | indexError : PyError
deriving DecidableEq, Repr

/-- Boolean test that an `Except` result is a successful return. -/
def exceptIsOk {ε α : Type} : Except ε α → Bool
  | Except.ok _ => true
  | Except.error _ => false

/-- Prefix test on character lists: `listIsPre p l` is true iff `p` is an
initial segment of `l` (the semantics of Python's `str.startswith`). -/
def listIsPre : List Char → List Char → Bool
  | [], _ => true
  | _ :: _, [] => false
  | a :: as, b :: bs => a == b && listIsPre as bs

/-- Substring test on character lists: true iff the pattern occurs as a
contiguous run (the semantics of Python's `pat in s`). -/
def listHasSub (pat : List Char) : List Char → Bool
  | [] => listIsPre pat []
  | c :: cs => listIsPre pat (c :: cs) || listHasSub pat cs

/-- Python's `pat in s` substring containment on strings: case-sensitive and
unanchored. -/
def strHasSub (s pat : String) : Bool := listHasSub pat.toList s.toList

/-- Python's `s.startswith(pre)`. -/
def pyStartsWith (s pre : String) : Bool := listIsPre pre.toList s.toList

/-- Python's `<=` on strings: lexicographic comparison by code point. -/
def pyStrLe (a b : String) : Bool := charListLe a.toList b.toList
where
  charListLe : List Char → List Char → Bool
    | [], _ => true
    | _ :: _, [] => false
    | a :: as, b :: bs => a.toNat < b.toNat || (a == b && charListLe as bs)

/-- Insert a string into a list so that an already sorted list stays sorted
(helper for `pySorted`). -/
def insertSorted (x : String) : List String → List String
  | [] => [x]
  | y :: ys => if pyStrLe x y then x :: y :: ys else y :: insertSorted x ys

/-- Python's `sorted` on a list of strings (insertion sort; stable, ascending
by `pyStrLe`). -/
def pySorted (l : List String) : List String := l.foldr insertSorted []

/-- Distinct elements of a list of strings, first occurrence kept (the
element set, as produced by Python's `set`; order is irrelevant because every
use below sorts the result). -/
def pyDedup : List String → List String
  | [] => []
  | a :: t => a :: (pyDedup t).filter (fun b => !(a == b))

/-- A parsed JSON sidecar record: an association list of metadata field names
to numeric values, as built by `collections.Counter(json.load(f))` in
`get_bold_info` (util.py lines 38-40 and 54-56).  A record loaded from a JSON
object has pairwise distinct keys. -/
abbrev Record : Type := List (String × Int)

/-- Key-lookup predicate used by the `Record` operations. -/
def keyMatch (k : String) (p : String × Int) : Bool := p.1 == k

/-- Python's `Counter.__getitem__`: the value stored at `k`, or `0` when `k`
is absent (`collections.Counter` returns `0` for missing keys instead of
raising `KeyError`). -/
def counterGet (r : Record) (k : String) : Int :=
  match List.find? (keyMatch k) r with
  | some p => p.2
  | none => 0

/-- Python's `k in counter` membership test on a record. -/
def counterMem (r : Record) (k : String) : Bool :=
  (List.find? (keyMatch k) r).isSome

/-- Body of the first loop of `collections.Counter.__add__`: an entry of
`self` is kept with value `count + other[elem]`, but only when that sum is
positive. -/
def addFn (other : Record) (p : String × Int) : Option (String × Int) :=
  let n := p.2 + counterGet other p.1
  if 0 < n then some (p.1, n) else none

/-- Condition of the second loop of `collections.Counter.__add__`: an entry
of `other` is kept (with its own value) when its key is absent from `self`
and its value is positive. -/
def filtFn (self : Record) (p : String × Int) : Bool :=
  !counterMem self p.1 && decide (0 < p.2)

/-- Python's `Counter.__add__`, the merge `subject_json + global_json` used
by `get_bold_info` (util.py line 59): sums values over shared keys and drops
every entry whose resulting value is not positive. -/
def counterAdd (self other : Record) : Record :=
  List.filterMap (addFn other) self ++ List.filter (filtFn self) other

/-- Embedding of `get_bold_info` (util.py lines 23-67).  The two indexer
queries are represented by their results: `global_json_list` is the list of
matched dataset-wide sidecar files and `subject_json_list` the list of
matched subject-specific sidecar files, each file given by its parsed record.
The control flow of the source is kept exactly:
- more than one global match only logs an error, so `global_json` stays
  unbound; zero matches sets it to `None`; exactly one match loads the file;
- the zero-match test of the subject branch erroneously tests
  `len(global_json_list) == 0` (line 50), so with zero subject matches and a
  nonempty global list the load `subject_json_list[0]` raises `IndexError`;
- reading an unbound variable in the final merge chain raises a name error;
  when both records are `None`, `bold_parameters` is never assigned and its
  use raises a name error;
- the final lookup `bold_parameters['RepetitionTime']` is a `Counter` lookup
  and hence returns `0` when the key is absent. -/
def get_bold_info (global_json_list subject_json_list : List Record) :
    Except PyError Int :=
  let global_json : Option (Option Record) :=
    if global_json_list.length > 1 then none
    else if global_json_list.length = 0 then some none
    else some global_json_list.head?
  let subject_step : Except PyError (Option (Option Record)) :=
    if subject_json_list.length > 1 then Except.ok none
    else if global_json_list.length = 0 then Except.ok (some none)
    else match subject_json_list with
      | [] => Except.error PyError.indexError
      | r :: _ => Except.ok (some (some r))
  match subject_step with
  | Except.error e => Except.error e
  | Except.ok subject_json =>
    match subject_json with
    | none => Except.error (PyError.nameError "subject_json")
    | some (some sj) =>
      match global_json with
      | none => Except.error (PyError.nameError "global_json")
      | some (some gj) => Except.ok (counterGet (counterAdd sj gj) "RepetitionTime")
      | some none => Except.ok (counterGet sj "RepetitionTime")
    | some none =>
      match global_json with
      | none => Except.error (PyError.nameError "global_json")
      | some (some gj) => Except.ok (counterGet gj "RepetitionTime")
      | some none => Except.error (PyError.nameError "bold_parameters")

/-- A parsed confound table: named numeric columns (name, values per
timepoint). -/
abbrev ConfoundTable : Type := List (String × List Int)

/-- Column-selection expression of `get_confound_info` (util.py lines 97-98):
`'CompCor' in col or 'X' in col or 'Y' in col or 'Z' in col`.  The pattern
set is hardcoded; matching is case-sensitive, unanchored substring
containment.  In the source this expression is unreachable because the
function fails earlier (see `get_confound_info`). -/
def confound_col_match (col : String) : Bool :=
  strHasSub col "CompCor" || strHasSub col "X" || strHasSub col "Y" || strHasSub col "Z"

/-- Embedding of `get_confound_info` (util.py lines 70-103).  Its first
statement reads the name `bids_data`, but the function's parameter is named
`derivatives_data` and no variable `bids_data` exists at module level, so
every call raises `NameError: name 'bids_data' is not defined` before any
table is read or any column is selected.  (The body also reads `confound_pd`
where the assigned variable is `confounds_pd`, a second unbound name.) -/
def get_confound_info (derivatives_data : List ConfoundTable)
    (regressor_names : Option (List String)) :
    Except PyError (List String × List (List Int)) :=
  Except.error (PyError.nameError "bids_data")

/-- One row of a parsed events table: the `onset`, `duration` and
`trial_type` columns retained by `get_task_info`. -/
structure EventRow where
  onset : Int
  duration : Int
  trial_type : String
deriving DecidableEq, Repr

/-- Group keys of `events_pd.groupby('trial_type')` as enumerated by
`list(events_pd_grouped.groups.keys())` (util.py lines 125-127): pandas
`groupby` sorts its group keys by default, so the distinct `trial_type`
values come out in lexicographic order, not in first-appearance order. -/
def groupKeys (events : List EventRow) : List String :=
  pySorted (pyDedup (events.map (fun r => r.trial_type)))

/-- Embedding of `get_task_info` (util.py lines 105-131).  The indexer query
is represented by its result `task_event_list`, each matched events file
given by its parsed rows.  Control flow of the source:
- unless exactly one events file matches, the branches only log and never
  bind `events_pd`, so the `groupby` line raises a name error on `events_pd`;
- with exactly one match, `conditions` is bound to the sorted group keys, but
  the next line builds `onsets` from the name `condition` (singular), which
  is bound nowhere in the module, so the function raises
  `NameError: name 'condition' is not defined` and never returns. -/
def get_task_info (task_event_list : List (List EventRow)) :
    Except PyError (List String × List (List Int) × List (List Int)) :=
  match task_event_list with
  | [events_pd] =>
    let conditions := groupKeys events_pd
    Except.error (PyError.nameError "condition")
  | _ => Except.error (PyError.nameError "events_pd")

/-- Event rows used by the spec's grouping example:
`[(0,1,"A"),(5,1,"B"),(10,1,"A")]`. -/
def exampleEvents : List EventRow :=
  [⟨0, 1, "A"⟩, ⟨5, 1, "B"⟩, ⟨10, 1, "A"⟩]

/-- The descriptor built by `bunch_info`: the field-for-field embedding of
the `nipype` `Bunch` constructed in util.py lines 133-138. -/
structure Bunch where
  conditions : List String
  onsets : List (List Int)
  durations : List (List Int)
  regressors : List (List Int)
  regressor_names : List String
deriving DecidableEq, Repr

/-- Embedding of `bunch_info` (util.py lines 133-138): a plain constructor
call with no validation of any kind. -/
def bunch_info (conditions : List String) (onsets durations : List (List Int))
    (regressor_names : List String) (regressors : List (List Int)) : Bunch :=
  { conditions := conditions, onsets := onsets, durations := durations,
    regressors := regressors, regressor_names := regressor_names }

/-- Embedding of the `BIDSError` class of util.py lines 163-174 with the
data carried by the three raise sites inside `collect_participants` (all of
them unreachable in the source, see `collect_participants` below). -/
inductive BIDSError where
  | noParticipants : BIDSError
  | participantsNotFound (requested : List String) : BIDSError
  | someNotFound (missing : List String) : BIDSError
deriving DecidableEq, Repr

/-- Python's `sub[4:] if sub.startswith('sub-') else sub` (util.py line 228):
strips a leading `sub-` from a label.  Like all of the body of
`collect_participants`, this line is unreachable in the source (see
`collect_participants` below). -/
def stripSub (s : String) : String :=
  if pyStartsWith s "sub-" then s.drop 4 else s

/-- Participant discovery as written in util.py lines 204-207: from the
names of the subdirectories of the dataset root (the `os.listdir` entries
that are directories, passed in as `subdirs`), keep those starting with
`sub-`, strip that prefix, and sort.  These lines are unreachable in the
source: they call `os.listdir`/`op.isdir`, and the names `os` and `op` are
never imported by the module, so the function crashes before them (see
`collect_participants`).  This definition is the value the expression would
compute were those names bound to the standard library. -/
def discover_participants (subdirs : List String) : List String :=
  pySorted ((subdirs.filter (fun s => pyStartsWith s "sub-")).map (fun s => s.drop 4))

/-- Normalisation of the requested labels (util.py lines 228-230, unreachable
in the source): `sub-` prefixes stripped, duplicates removed, sorted. -/
def requestedNorm (pl : List String) : List String :=
  pySorted (pyDedup (pl.map stripSub))

/-- The requested labels that discovery found,
`sorted(set(participant_label) & set(all_participants))` (util.py line 232,
unreachable in the source). -/
def foundOf (subdirs pl : List String) : List String :=
  pySorted ((requestedNorm pl).filter (fun s => (discover_participants subdirs).contains s))

/-- The requested labels absent from discovery,
`sorted(set(participant_label) - set(all_participants))` (util.py line 238,
unreachable in the source). -/
def notFoundOf (subdirs pl : List String) : List String :=
  pySorted ((requestedNorm pl).filter (fun s => !(discover_participants subdirs).contains s))

/-- Message of the warning built when some requested labels are absent
(util.py lines 240-241, unreachable in the source; the call
`warnings.warn(...)` would itself raise a name error, `warnings` being
another never-imported module). -/
def notFoundWarn (missing : List String) : String :=
  "Some participants were not found: " ++ String.intercalate ", " missing

/-- Embedding of `collect_participants` (util.py lines 180-245).  The module
imports neither `os`, nor `os.path` (`op`), nor `warnings`, and the
function's first statement is `bids_dir = op.abspath(bids_dir)` (line 203),
so every call raises `NameError: name 'op' is not defined` before any
discovery, validation, warning or return happens — despite the function's
own docstring doctests asserting successful returns.  The rest of the body
never executes; its logic is modelled separately by
`collect_participants_logic`. -/
def collect_participants (subdirs : List String)
    (participant_label : Option (List String)) (strict : Bool) :
    Except PyError (List String × List String) :=
  Except.error (PyError.nameError "op")

/-- The body of `collect_participants` after its first statement (util.py
lines 204-245), as it would execute were the missing modules imported: this
is the behaviour the function's docstring doctests describe, unreachable in
the source as written.  `subdirs` stands for the directory entries of the
dataset root.  The returned pair carries the participant list together with
the list of warning messages passed to `warnings.warn`.  Control flow, in
order: empty discovery raises; a `None` or empty `participant_label` returns
the full discovered list; an empty intersection raises; missing labels raise
when `strict` and only warn otherwise; the sorted intersection is
returned. -/
def collect_participants_logic (subdirs : List String)
    (participant_label : Option (List String)) (strict : Bool) :
    Except BIDSError (List String × List String) :=
  if discover_participants subdirs = [] then
    Except.error BIDSError.noParticipants
  else
    match participant_label with
    | none => Except.ok (discover_participants subdirs, [])
    | some [] => Except.ok (discover_participants subdirs, [])
    | some pl =>
      if foundOf subdirs pl = [] then
        Except.error (BIDSError.participantsNotFound (requestedNorm pl))
      else if notFoundOf subdirs pl = [] then
        Except.ok (foundOf subdirs pl, [])
      else if strict then
        Except.error (BIDSError.someNotFound (notFoundOf subdirs pl))
      else
        Except.ok (foundOf subdirs pl, [notFoundWarn (notFoundOf subdirs pl)])

/-- Lookup of a key with no matching entry yields `0`. -/
theorem counterGet_of_find?_none {r : Record} {k : String}
    (h : List.find? (keyMatch k) r = none) : counterGet r k = 0 := by
  simp [counterGet, h]

/-- Absence in the `counterMem` sense is absence in the `find?` sense. -/
theorem find?_none_of_counterMem_false {r : Record} {k : String}
    (h : counterMem r k = false) : List.find? (keyMatch k) r = none := by
  unfold counterMem at h
  cases hE : List.find? (keyMatch k) r with
  | none => rfl
  | some p => rw [hE] at h; simp at h

/-- A key absent from a record looks up to `0` (the `Counter` default). -/
theorem counterGet_of_not_mem {r : Record} {k : String}
    (h : counterMem r k = false) : counterGet r k = 0 :=
  counterGet_of_find?_none (find?_none_of_counterMem_false h)

/-- A record none of whose entries carries the key `k` has no `find?` match
for `k`. -/
theorem find?_eq_none_of_keys {r : Record} {k : String}
    (h : ∀ p ∈ r, p.1 ≠ k) : List.find? (keyMatch k) r = none := by
  rw [List.find?_eq_none]
  intro x hx hkx
  exact h x hx (by simpa [keyMatch] using hkx)

/-- The first `Counter.__add__` loop produces no entry with key `k` when
`self` has none. -/
theorem find?_filterMap_addFn_none {s : Record} (o : Record) {k : String}
    (h : List.find? (keyMatch k) s = none) :
    List.find? (keyMatch k) (List.filterMap (addFn o) s) = none := by
  rw [List.find?_eq_none] at h ⊢
  intro x hx hkx
  rw [List.mem_filterMap] at hx
  obtain ⟨a, ha, hfa⟩ := hx
  simp only [addFn] at hfa
  split at hfa
  · cases hfa
    exact h a ha hkx
  · cases hfa

/-- When `self` holds the key `k` and the summed value is positive, the first
`Counter.__add__` loop yields exactly the summed entry as the first match. -/
theorem find?_filterMap_addFn_of_mem {s : Record} (o : Record) {k : String}
    (hmem : counterMem s k = true)
    (hpos : 0 < counterGet s k + counterGet o k) :
    List.find? (keyMatch k) (List.filterMap (addFn o) s) =
      some (k, counterGet s k + counterGet o k) := by
  induction s with
  | nil => simp [counterMem] at hmem
  | cons a t ih =>
    by_cases hk : keyMatch k a
    · have ha1 : a.1 = k := by simpa [keyMatch] using hk
      have hget : counterGet (a :: t) k = a.2 := by
        simp [counterGet, List.find?_cons_of_pos _ hk]
      rw [hget] at hpos
      have haf : addFn o a = some (a.1, a.2 + counterGet o a.1) := by
        simp only [addFn, ha1]
        rw [if_pos hpos]
      rw [List.filterMap_cons, haf]
      rw [List.find?_cons_of_pos _ (by simpa [keyMatch] using ha1)]
      rw [hget, ha1]
    · have hget : counterGet (a :: t) k = counterGet t k := by
        simp [counterGet, List.find?_cons_of_neg _ hk]
      have hmem' : counterMem t k = true := by
        simpa [counterMem, List.find?_cons_of_neg _ hk] using hmem
      rw [hget] at hpos
      have ha1 : ¬ a.1 = k := fun h => hk (by simpa [keyMatch] using h)
      rw [List.filterMap_cons]
      cases haf : addFn o a with
      | none => rw [hget]; exact ih hmem' hpos
      | some b =>
        have hb1 : b.1 = a.1 := by
          simp only [addFn] at haf
          split at haf
          · cases haf; rfl
          · cases haf
        rw [List.find?_cons_of_neg _ (by simp [keyMatch, hb1, ha1])]
        rw [hget]
        exact ih hmem' hpos

/-- When the keys of `self` are pairwise distinct and the summed value at `k`
is not positive, the first `Counter.__add__` loop drops the key `k`
entirely. -/
theorem find?_filterMap_addFn_nonpos {s : Record} (o : Record) {k : String}
    (hnd : (s.map Prod.fst).Nodup)
    (hsum : counterGet s k + counterGet o k ≤ 0) :
    List.find? (keyMatch k) (List.filterMap (addFn o) s) = none := by
  induction s with
  | nil => rfl
  | cons a t ih =>
    rw [List.map_cons, List.nodup_cons] at hnd
    obtain ⟨hna, hndt⟩ := hnd
    by_cases hk : keyMatch k a
    · have ha1 : a.1 = k := by simpa [keyMatch] using hk
      have hget : counterGet (a :: t) k = a.2 := by
        simp [counterGet, List.find?_cons_of_pos _ hk]
      rw [hget] at hsum
      have haf : addFn o a = none := by
        simp only [addFn, ha1]
        rw [if_neg (by omega)]
      rw [List.filterMap_cons, haf]
      apply find?_filterMap_addFn_none
      apply find?_eq_none_of_keys
      intro p hp hpk
      exact hna (by rw [ha1, ← hpk]; exact List.mem_map_of_mem _ hp)
    · have hget : counterGet (a :: t) k = counterGet t k := by
        simp [counterGet, List.find?_cons_of_neg _ hk]
      rw [hget] at hsum
      have ha1 : ¬ a.1 = k := fun h => hk (by simpa [keyMatch] using h)
      rw [List.filterMap_cons]
      cases haf : addFn o a with
      | none => exact ih hndt hsum
      | some b =>
        have hb1 : b.1 = a.1 := by
          simp only [addFn] at haf
          split at haf
          · cases haf; rfl
          · cases haf
        rw [List.find?_cons_of_neg _ (by simp [keyMatch, hb1, ha1])]
        exact ih hndt hsum

/-- The second `Counter.__add__` loop yields no entry with key `k` when
`self` already holds `k` (its filter requires absence from `self`). -/
theorem find?_filter_filtFn_of_mem {s o : Record} {k : String}
    (hmem : counterMem s k = true) :
    List.find? (keyMatch k) (List.filter (filtFn s) o) = none := by
  rw [List.find?_eq_none]
  intro x hx hkx
  have hx1 : x.1 = k := by simpa [keyMatch] using hkx
  have hcond := (List.mem_filter.mp hx).2
  simp [filtFn, hx1, hmem] at hcond

/-- The second `Counter.__add__` loop yields no entry with key `k` when
`other` has none. -/
theorem find?_filter_of_find?_none {o : Record} (s : Record) {k : String}
    (h : List.find? (keyMatch k) o = none) :
    List.find? (keyMatch k) (List.filter (filtFn s) o) = none := by
  rw [List.find?_eq_none] at h ⊢
  intro x hx
  exact h x (List.mem_filter.mp hx).1

/-- When `k` is absent from `self`, present in `other`, and its value there
is positive, the second `Counter.__add__` loop yields that entry as the
first match. -/
theorem find?_filter_filtFn_of_pos {s o : Record} {k : String}
    (hsmem : counterMem s k = false)
    (hmem : counterMem o k = true)
    (hpos : 0 < counterGet o k) :
    List.find? (keyMatch k) (List.filter (filtFn s) o) = some (k, counterGet o k) := by
  induction o with
  | nil => simp [counterMem] at hmem
  | cons a t ih =>
    by_cases hk : keyMatch k a
    · have ha1 : a.1 = k := by simpa [keyMatch] using hk
      have hget : counterGet (a :: t) k = a.2 := by
        simp [counterGet, List.find?_cons_of_pos _ hk]
      rw [hget] at hpos
      have hcond : filtFn s a = true := by
        simp [filtFn, ha1, hsmem, hpos]
      rw [List.filter_cons_of_pos hcond]
      rw [List.find?_cons_of_pos _ hk, hget]
      cases a
      simp only at ha1
      rw [ha1]
    · have hget : counterGet (a :: t) k = counterGet t k := by
        simp [counterGet, List.find?_cons_of_neg _ hk]
      have hmem' : counterMem t k = true := by
        simpa [counterMem, List.find?_cons_of_neg _ hk] using hmem
      rw [hget] at hpos
      rw [hget]
      by_cases hcond : filtFn s a = true
      · rw [List.filter_cons_of_pos hcond, List.find?_cons_of_neg _ hk]
        exact ih hmem' hpos
      · rw [List.filter_cons_of_neg (by simpa using hcond)]
        exact ih hmem' hpos

/-- When `k` is absent from `self`, the keys of `other` are pairwise
distinct, and the value of `k` in `other` is not positive, the second
`Counter.__add__` loop drops the key `k` entirely. -/
theorem find?_filter_filtFn_nonpos {s o : Record} {k : String}
    (hnd : (o.map Prod.fst).Nodup)
    (hval : counterGet o k ≤ 0) :
    List.find? (keyMatch k) (List.filter (filtFn s) o) = none := by
  induction o with
  | nil => rfl
  | cons a t ih =>
    rw [List.map_cons, List.nodup_cons] at hnd
    obtain ⟨hna, hndt⟩ := hnd
    by_cases hk : keyMatch k a
    · have ha1 : a.1 = k := by simpa [keyMatch] using hk
      have hget : counterGet (a :: t) k = a.2 := by
        simp [counterGet, List.find?_cons_of_pos _ hk]
      rw [hget] at hval
      have hcond : filtFn s a = false := by
        simp [filtFn]
        intro _
        omega
      rw [List.filter_cons_of_neg (by simp [hcond])]
      apply find?_filter_of_find?_none
      apply find?_eq_none_of_keys
      intro p hp hpk
      exact hna (by rw [ha1, ← hpk]; exact List.mem_map_of_mem _ hp)
    · have hget : counterGet (a :: t) k = counterGet t k := by
        simp [counterGet, List.find?_cons_of_neg _ hk]
      rw [hget] at hval
      by_cases hcond : filtFn s a = true
      · rw [List.filter_cons_of_pos hcond, List.find?_cons_of_neg _ hk]
        exact ih hndt hval
      · rw [List.filter_cons_of_neg (by simpa using hcond)]
        exact ih hndt hval

/-- Positive-sum case of the `Counter` merge: whenever the summed value of a
key over the two records is positive, the merged record looks that key up to
exactly the sum.  This covers keys present in both records (values summed)
and keys present in exactly one record with a positive value (value kept,
since the other lookup contributes `0`). -/
theorem counterAdd_get_sum {s o : Record} {k : String}
    (hpos : 0 < counterGet s k + counterGet o k) :
    counterGet (counterAdd s o) k = counterGet s k + counterGet o k := by
  unfold counterAdd
  by_cases hm : counterMem s k
  · have h1 := find?_filterMap_addFn_of_mem o hm hpos
    rw [counterGet, List.find?_append, h1]
    rfl
  · have hm' : counterMem s k = false := by simpa using hm
    have hs0 : counterGet s k = 0 := counterGet_of_not_mem hm'
    rw [hs0] at hpos ⊢
    have hmo : counterMem o k = true := by
      by_contra h
      have ho0 : counterGet o k = 0 := counterGet_of_not_mem (by simpa using h)
      omega
    have h1 := find?_filterMap_addFn_none o (find?_none_of_counterMem_false hm')
    have h2 := find?_filter_filtFn_of_pos hm' hmo (by omega)
    rw [counterGet, List.find?_append, h1, Option.none_or, h2]
    show counterGet o k = 0 + counterGet o k
    omega

/-- Nonpositive-sum case of the `Counter` merge: when the records have
pairwise distinct keys (as every record parsed from a JSON object does) and
the summed value of a key is not positive, that key is absent from the
merged record. -/
theorem counterAdd_not_mem_of_nonpos {s o : Record} {k : String}
    (hs : (s.map Prod.fst).Nodup) (ho : (o.map Prod.fst).Nodup)
    (hsum : counterGet s k + counterGet o k ≤ 0) :
    counterMem (counterAdd s o) k = false := by
  unfold counterAdd
  have h1 := find?_filterMap_addFn_nonpos o hs hsum
  have h2 : List.find? (keyMatch k) (List.filter (filtFn s) o) = none := by
    by_cases hm : counterMem s k
    · exact find?_filter_filtFn_of_mem hm
    · have hm' : counterMem s k = false := by simpa using hm
      have hs0 : counterGet s k = 0 := counterGet_of_not_mem hm'
      exact find?_filter_filtFn_nonpos ho (by omega)
  rw [counterMem, List.find?_append, h1, Option.none_or, h2]
  rfl

/-- C3 counterexample: with one dataset-wide and one subject-specific
sidecar, both parsing to records without the `RepetitionTime` field,
`get_bold_info` returns `0` instead of failing: no `MetadataError` (or any
other error) is raised on a missing repetition time. -/
theorem get_bold_info_empty_records_ok_zero :
    get_bold_info [([] : Record)] [([] : Record)] = Except.ok 0 := rfl

/-- C3 amended: whenever each metadata level matches exactly one sidecar
file and the `RepetitionTime` field is absent from both records (hence from
their merge), `get_bold_info` returns `Except.ok 0` — the
`collections.Counter` missing-key default — rather than failing. -/
theorem get_bold_info_missing_tr_returns_zero (g s : Record)
    (hg : counterMem g "RepetitionTime" = false)
    (hs : counterMem s "RepetitionTime" = false) :
    get_bold_info [g] [s] = Except.ok 0 := by
  have h1 : List.find? (keyMatch "RepetitionTime") (counterAdd s g) = none := by
    unfold counterAdd
    rw [List.find?_append, find?_filterMap_addFn_none g (find?_none_of_counterMem_false hs),
        Option.none_or]
    exact find?_filter_of_find?_none s (find?_none_of_counterMem_false hg)
  show Except.ok (counterGet (counterAdd s g) "RepetitionTime") = Except.ok 0
  rw [counterGet_of_find?_none h1]

/-- C3 witness: a concrete instance of the amended statement. -/
theorem get_bold_info_missing_tr_returns_zero_witness :
    get_bold_info [[("EchoTime", 1)]] [([] : Record)] = Except.ok 0 :=
  get_bold_info_missing_tr_returns_zero [("EchoTime", 1)] [] (by decide) (by decide)

/-- C4: the ambiguous- and zero-match handling of `get_bold_info` crashes
instead of proceeding with empty records.  In order of the conjuncts: two
dataset-wide matches leave `global_json` unbound and the merge chain raises
a name error; zero subject matches with one dataset-wide match raise
`IndexError`, because the zero-match guard of the subject branch tests the
length of the dataset-wide list; two subject matches leave `subject_json`
unbound; zero matches at both levels, and also zero dataset-wide matches
with one subject match (the subject record is discarded by the same wrong
guard), leave `bold_parameters` unbound. -/
theorem get_bold_info_ambiguity_crashes :
    get_bold_info [[("RepetitionTime", 2)], [("RepetitionTime", 3)]] [[("RepetitionTime", 2)]]
      = Except.error (PyError.nameError "global_json") ∧
    get_bold_info [[("RepetitionTime", 2)]] []
      = Except.error PyError.indexError ∧
    get_bold_info [[("RepetitionTime", 2)]] [[("RepetitionTime", 1)], [("RepetitionTime", 2)]]
      = Except.error (PyError.nameError "subject_json") ∧
    get_bold_info [] [] = Except.error (PyError.nameError "bold_parameters") ∧
    get_bold_info [] [[("RepetitionTime", 2)]]
      = Except.error (PyError.nameError "bold_parameters") :=
  ⟨rfl, rfl, rfl, rfl, rfl⟩

/-- C5 counterexample: a key present in only one record does not keep its
value unchanged — `Counter.__add__` drops non-positive values.  The record
pair `({}, `RepetitionTime ↦ -2`)` merges to the empty record, whose lookup
yields `0`, and `get_bold_info` on those two single-file levels returns
`Except.ok 0`, not `-2`. -/
theorem counter_merge_drops_lone_negative :
    counterGet (counterAdd [] [("RepetitionTime", -2)]) "RepetitionTime" = 0 ∧
    get_bold_info [[("RepetitionTime", -2)]] [([] : Record)] = Except.ok 0 ∧
    ((-2 : Int) ≠ 0) :=
  ⟨rfl, rfl, by decide⟩

/-- C5 amended: the merge performed by `get_bold_info` is additive whenever
the summed value of a key over the two records is positive: keys present in
both records are summed, and a key present in only one record keeps its
value when that value is positive (the absent side contributes `0`).  Keys
whose value or sum is not positive are dropped from the merge. -/
theorem counter_merge_additive_when_positive (s o : Record) (k : String)
    (hpos : 0 < counterGet s k + counterGet o k) :
    counterGet (counterAdd s o) k = counterGet s k + counterGet o k :=
  counterAdd_get_sum hpos

/-- C5 witness: a concrete instance of the amended statement, summing a key
present in both records. -/
theorem counter_merge_additive_when_positive_witness :
    counterGet (counterAdd [("RepetitionTime", 2)] [("RepetitionTime", 3)]) "RepetitionTime" =
      counterGet [("RepetitionTime", 2)] "RepetitionTime" +
        counterGet [("RepetitionTime", 3)] "RepetitionTime" :=
  counter_merge_additive_when_positive [("RepetitionTime", 2)] [("RepetitionTime", 3)]
    "RepetitionTime" (by decide)

/-- C10: because the merge of `get_bold_info` is `collections.Counter`
addition, any key whose summed value over the two records is zero or
negative is silently absent from the merged record (for records with
pairwise distinct keys, as parsed JSON objects are), and looking that key up
in the merged record yields `0` rather than an error. -/
theorem counter_merge_nonpos_key_absent (s o : Record) (k : String)
    (hs : (s.map Prod.fst).Nodup) (ho : (o.map Prod.fst).Nodup)
    (hsum : counterGet s k + counterGet o k ≤ 0) :
    counterMem (counterAdd s o) k = false ∧ counterGet (counterAdd s o) k = 0 := by
  have h := counterAdd_not_mem_of_nonpos hs ho hsum
  exact ⟨h, counterGet_of_not_mem h⟩

/-- C10 witness: a key whose values sum to `0` disappears from the merge and
looks up to `0`. -/
theorem counter_merge_nonpos_key_absent_witness :
    counterMem (counterAdd [("SliceDelay", -1)] [("SliceDelay", 1)]) "SliceDelay" = false ∧
    counterGet (counterAdd [("SliceDelay", -1)] [("SliceDelay", 1)]) "SliceDelay" = 0 :=
  counter_merge_nonpos_key_absent [("SliceDelay", -1)] [("SliceDelay", 1)] "SliceDelay"
    (by decide) (by decide) (by decide)

/-- C1 counterexample: on the spec's own example table
`[(0,1,"A"),(5,1,"B"),(10,1,"A")]` the event extraction does not yield
`conditions == ["A","B"]` with `onsets == [[0,10],[5]]` — it raises
`NameError` on the unbound name `condition` and returns nothing. -/
theorem get_task_info_spec_example_fails :
    get_task_info [exampleEvents] = Except.error (PyError.nameError "condition") ∧
    get_task_info [exampleEvents] ≠
      Except.ok (["A", "B"], [[0, 10], [5]], [[1, 1], [1]]) :=
  ⟨rfl, fun h => Except.noConfusion h⟩

/-- C1 amended: for every event table, `get_task_info` raises `NameError` on
the unbound name `condition` instead of returning conditions and onsets; the
grouping it performs before failing enumerates the distinct `trial_type`
values in lexicographic (sorted) order, not first-appearance order — on the
spec's example rows the two orders happen to coincide (`["A","B"]`), and on
rows whose trial types first appear as `B` then `A` the group keys are still
`["A","B"]`. -/
theorem get_task_info_nameError_and_sorted_keys :
    (∀ events : List EventRow,
      get_task_info [events] = Except.error (PyError.nameError "condition")) ∧
    groupKeys exampleEvents = ["A", "B"] ∧
    groupKeys [⟨0, 1, "B"⟩, ⟨5, 1, "A"⟩] = ["A", "B"] :=
  ⟨fun _ => rfl, by decide, by decide⟩

/-- C2: `get_task_info` never returns a triple at all — for every list of
matched event tables it raises a name error: on `condition` when exactly one
table matches, and on `events_pd` otherwise — so no returned triple
satisfying the length invariants exists. -/
theorem get_task_info_never_returns :
    ∀ task_event_list : List (List EventRow),
      get_task_info task_event_list = Except.error (PyError.nameError "condition") ∨
      get_task_info task_event_list = Except.error (PyError.nameError "events_pd") := by
  intro l
  match l with
  | [] => exact Or.inr rfl
  | [e] => exact Or.inl rfl
  | a :: b :: t => exact Or.inr rfl

/-- C6 counterexample: `bunch_info` raises nothing on mismatched inputs.  At
an input whose regressor-name count (2) differs from its regressor-sequence
count (1) and whose condition count (1) differs from its onset-group count
(2), it still returns the descriptor built from its arguments. -/
theorem bunch_info_mismatch_returns :
    bunch_info ["A"] [[0, 10], [5]] [[1, 1]] ["n1", "n2"] [[1]] =
      { conditions := ["A"], onsets := [[0, 10], [5]], durations := [[1, 1]],
        regressors := [[1]], regressor_names := ["n1", "n2"] } ∧
    (["n1", "n2"] : List String).length ≠ ([[1]] : List (List Int)).length ∧
    (["A"] : List String).length ≠ ([[0, 10], [5]] : List (List Int)).length :=
  ⟨rfl, by decide, by decide⟩

/-- C6 amended: `bunch_info` performs no cross-field validation — for every
tuple of inputs, including those where the regressor-name count differs from
the regressor-sequence count or the condition count differs from the
onset/duration group counts, it returns the descriptor assembled from its
arguments unchanged (no `MetadataError` exists anywhere in the module). -/
theorem bunch_info_no_validation (conditions : List String)
    (onsets durations : List (List Int)) (regressor_names : List String)
    (regressors : List (List Int))
    (h : regressor_names.length ≠ regressors.length ∨
         conditions.length ≠ onsets.length ∨ conditions.length ≠ durations.length) :
    bunch_info conditions onsets durations regressor_names regressors =
      { conditions := conditions, onsets := onsets, durations := durations,
        regressors := regressors, regressor_names := regressor_names } := rfl

/-- C6 witness: a concrete instance of the amended statement with mismatched
regressor names. -/
theorem bunch_info_no_validation_witness :
    bunch_info ["A"] [[0]] [[1]] ["n1", "n2"] [[2]] =
      { conditions := ["A"], onsets := [[0]], durations := [[1]],
        regressors := [[2]], regressor_names := ["n1", "n2"] } :=
  bunch_info_no_validation ["A"] [[0]] [[1]] ["n1", "n2"] [[2]] (Or.inl (by decide))

/-- C7: `get_confound_info` crashes on every call with `NameError` on
`bids_data` (the function's parameter is named `derivatives_data`), so no
column is ever selected; its unreachable selection expression hardcodes the
patterns `CompCor`/`X`/`Y`/`Z` (no configurable pattern set exists), and
under case-sensitive substring matching those patterns select `CompCor00`
and reject `trans_x` and `trans_y` from the spec's example columns. -/
theorem get_confound_info_always_crashes :
    (∀ (derivatives_data : List ConfoundTable) (regressor_names : Option (List String)),
      get_confound_info derivatives_data regressor_names =
        Except.error (PyError.nameError "bids_data")) ∧
    List.filter confound_col_match ["trans_x", "CompCor00", "trans_y"] = ["CompCor00"] ∧
    confound_col_match "trans_x" = false :=
  ⟨fun _ _ => rfl, by decide, by decide⟩

/-- Evaluation of the unreachable body `collect_participants_logic` on a
nonempty requested list over a dataset with at least one discovered
participant: the head checks pass and the result is decided by the
found/not-found intersection tests. -/
theorem collect_participants_cons_eval (subdirs : List String) (l : String)
    (ls : List String) (strict : Bool)
    (hd : discover_participants subdirs ≠ []) :
    collect_participants_logic subdirs (some (l :: ls)) strict =
      if foundOf subdirs (l :: ls) = [] then
        Except.error (BIDSError.participantsNotFound (requestedNorm (l :: ls)))
      else if notFoundOf subdirs (l :: ls) = [] then
        Except.ok (foundOf subdirs (l :: ls), [])
      else if strict then
        Except.error (BIDSError.someNotFound (notFoundOf subdirs (l :: ls)))
      else
        Except.ok (foundOf subdirs (l :: ls), [notFoundWarn (notFoundOf subdirs (l :: ls))]) := by
  unfold collect_participants_logic
  rw [if_neg hd]

/-- C8: `collect_participants` never returns the discovered participant set:
because the module never imports `os`/`op`/`warnings`, every call (in
particular with a `None` or empty requested-label list and `strict = false`)
raises `NameError` on `op` at its first statement.  The claimed equality
with discovery holds only of the function's unreachable remaining body,
whose doctests promise it: on a root with at least one discovered
participant, that body with a `None` or empty request returns exactly the
discovered list and emits no warning. -/
theorem collect_participants_nameError_empty_request (subdirs : List String)
    (participant_label : Option (List String)) (strict : Bool)
    (h : discover_participants subdirs ≠ []) :
    collect_participants subdirs participant_label strict =
      Except.error (PyError.nameError "op") ∧
    collect_participants_logic subdirs none false =
      Except.ok (discover_participants subdirs, []) ∧
    collect_participants_logic subdirs (some []) false =
      Except.ok (discover_participants subdirs, []) := by
  refine ⟨rfl, ?_, ?_⟩ <;> (unfold collect_participants_logic; rw [if_neg h])

/-- C8 witness: a concrete dataset root with two participant directories and
one non-participant entry. -/
theorem collect_participants_nameError_empty_request_witness :
    collect_participants ["sub-02", "sub-01", "anat"] none false =
      Except.error (PyError.nameError "op") ∧
    collect_participants_logic ["sub-02", "sub-01", "anat"] none false =
      Except.ok (["01", "02"], []) ∧
    collect_participants_logic ["sub-02", "sub-01", "anat"] (some []) false =
      Except.ok (["01", "02"], []) := by
  have h := collect_participants_nameError_empty_request ["sub-02", "sub-01", "anat"]
    none false (by decide)
  have hd : discover_participants ["sub-02", "sub-01", "anat"] = ["01", "02"] := by decide
  rw [hd] at h
  exact h

/-- C9: neither the strict failure nor the warn-and-return path is ever
reached: every call of `collect_participants` raises `NameError` on `op`
(never-imported module alias) at its first statement.  The claimed behaviour
holds only of the function's unreachable remaining body, as its doctests
promise: when the requested labels intersect discovery nontrivially but some
are absent, that body with `strict = true` fails with the error naming
exactly the missing labels, and with `strict = false` returns the found
labels (sorted) together with a warning message naming the missing
labels. -/
theorem collect_participants_nameError_partial_request (subdirs pl : List String)
    (strict : Bool)
    (hne : pl ≠ [])
    (hd : discover_participants subdirs ≠ [])
    (hf : foundOf subdirs pl ≠ [])
    (hnf : notFoundOf subdirs pl ≠ []) :
    collect_participants subdirs (some pl) strict =
      Except.error (PyError.nameError "op") ∧
    collect_participants_logic subdirs (some pl) true =
      Except.error (BIDSError.someNotFound (notFoundOf subdirs pl)) ∧
    collect_participants_logic subdirs (some pl) false =
      Except.ok (foundOf subdirs pl, [notFoundWarn (notFoundOf subdirs pl)]) := by
  obtain ⟨l, ls, rfl⟩ : ∃ a t, pl = a :: t := by
    cases pl with
    | nil => cases hne rfl
    | cons a t => exact ⟨a, t, rfl⟩
  refine ⟨rfl, ?_, ?_⟩ <;>
    (rw [collect_participants_cons_eval subdirs l ls _ hd, if_neg hf, if_neg hnf]; rfl)

/-- C9 witness: requesting `["02", "14"]` over a root holding `sub-01` and
`sub-02`: the function itself raises the name error, while its unreachable
body in strict mode fails naming `14` and in non-strict mode returns
`["02"]` with a warning about `14`. -/
theorem collect_participants_nameError_partial_request_witness :
    collect_participants ["sub-01", "sub-02"] (some ["02", "14"]) true =
      Except.error (PyError.nameError "op") ∧
    collect_participants_logic ["sub-01", "sub-02"] (some ["02", "14"]) true =
      Except.error (BIDSError.someNotFound ["14"]) ∧
    collect_participants_logic ["sub-01", "sub-02"] (some ["02", "14"]) false =
      Except.ok (["02"], ["Some participants were not found: 14"]) := by
  have h := collect_participants_nameError_partial_request ["sub-01", "sub-02"] ["02", "14"]
    true (by decide) (by decide) (by decide) (by decide)
  have hf : foundOf ["sub-01", "sub-02"] ["02", "14"] = ["02"] := by decide
  have hnf : notFoundOf ["sub-01", "sub-02"] ["02", "14"] = ["14"] := by decide
  have hw : notFoundWarn ["14"] = "Some participants were not found: 14" := rfl
  rw [hf, hnf, hw] at h
  exact h
